import Mathlib

/-!
Verification development for the Dynamsoft MRZ scanner UI component.

This file gives a shallow embedding, in Lean, of the scan-orchestration and
result-normalization layer of the repository:

* the scan-mode manager of `MRZScannerView` (`initializeScanModeManager`,
  `getScanMode`, `toggleScanDocType` in `src/views/MRZScannerView.ts`),
* the scan-region geometry (`calculateScanRegion`),
* the MRZ field mapper (`processMRZData`, `parseMRZDate`, `calculateAge`,
  `mapDocumentType` in `src/index.ts`),
* the terminal-outcome construction of the scan session
  (`handleMRZResult`, `uploadImage`, `handleCloseBtn`, the catch blocks of
  `initialize`, `openCamera` and `launch`), and
* the in-flight guard and disposal of the outer `MRZScanner` facade.

JavaScript numbers are modelled as `ℚ` (the computations involved are exact
decimal arithmetic well inside the double range), machine integers as `Int`,
fallible code as `Except String`, and `undefined`-able slots as `Option`.
All definitions are executable.
-/

set_option autoImplicit false

/-- The three MRTD document format classes recognized by the scanner
(`EnumMRZDocumentType` in `src/views/utils/types.ts`). -/
inductive EnumMRZDocumentType where
  | TD1
  | TD2
  | Passport
  deriving DecidableEq, Repr

/-- Modelled from the spec: the string values of `EnumMRZDocumentType` live in
`src/views/utils/types.ts`, which is not among the provided sources; the spec
names the three document classes TD1, TD2 and Passport and says mode lookup
keys are built from these values, lexically sorted.  We use the lower-case
type names as the enum values. -/
def docTypeValue : EnumMRZDocumentType → String
  | .TD1 => "td1"
  | .TD2 => "td2"
  | .Passport => "passport"

/-- The seven scan modes (`EnumMRZScanMode` in `src/views/utils/types.ts`),
one per non-empty subset of the document types. -/
inductive EnumMRZScanMode where
  | Passport
  | TD1
  | TD2
  | PassportAndTD1
  | PassportAndTD2
  | TD1AndTD2
  | All
  deriving DecidableEq, Repr

/-- Result status codes (`EnumResultStatus` in `src/views/utils/types.ts`). -/
inductive EnumResultStatus where
  | RS_SUCCESS
  | RS_FAILED
  | RS_CANCELLED
  deriving DecidableEq, Repr

/-- The `scanModeManager` record of `MRZScannerView`:
`Record<EnumMRZDocumentType, boolean>`, one enabled flag per document type.
Field order mirrors the insertion order of the object literal
(`Passport`, `TD1`, `TD2`). -/
structure ScanModeManagerState where
  passport : Bool
  td1 : Bool
  td2 : Bool
  deriving DecidableEq, Repr

/-- Read `scanModeManager[docType]`. -/
def scanModeGet (s : ScanModeManagerState) : EnumMRZDocumentType → Bool
  | .Passport => s.passport
  | .TD1 => s.td1
  | .TD2 => s.td2

/-- Write `scanModeManager[docType] = b`. -/
def scanModeSet (s : ScanModeManagerState) : EnumMRZDocumentType → Bool → ScanModeManagerState
  | .Passport, b => { s with passport := b }
  | .TD1, b => { s with td1 := b }
  | .TD2, b => { s with td2 := b }

/-- `Object.entries(this.scanModeManager)` in insertion order. -/
def scanModeEntries (s : ScanModeManagerState) : List (EnumMRZDocumentType × Bool) :=
  [(.Passport, s.passport), (.TD1, s.td1), (.TD2, s.td2)]

/-- Number of currently enabled document types. -/
def enabledCount (s : ScanModeManagerState) : Nat :=
  ((scanModeEntries s).filter (fun e => e.2)).length

/-- Lexicographic (code-unit) order on character lists, the order JavaScript's
default `Array.prototype.sort()` comparator induces on strings. -/
def charListLe : List Char → List Char → Bool
  | [], _ => true
  | _ :: _, [] => false
  | a :: as, b :: bs => if a < b then true else if a = b then charListLe as bs else false

/-- Code-unit comparison of two strings. -/
def strLe (a b : String) : Bool :=
  charListLe a.data b.data

/-- Sorted insertion of a string, for `sortStrings`. -/
def insertSorted (x : String) : List String → List String
  | [] => [x]
  | y :: ys => if strLe x y then x :: y :: ys else y :: insertSorted x ys

/-- Insertion sort of strings, modelling `Array.prototype.sort()` on the
(pairwise distinct) document-type values. -/
def sortStrings : List String → List String
  | [] => []
  | x :: xs => insertSorted x (sortStrings xs)

/-- The lookup key built by `getScanMode`: enabled entries, mapped to their
type values, sorted and joined with a comma
(`src/views/MRZScannerView.ts`, lines 788-792). -/
def enabledKey (s : ScanModeManagerState) : String :=
  String.intercalate ","
    (sortStrings (((scanModeEntries s).filter (fun e => e.2)).map (fun e => docTypeValue e.1)))

/-- The `modeMap` lookup table of `getScanMode`
(`src/views/MRZScannerView.ts`, lines 794-803).  A key not present in the
record yields JavaScript `undefined`, modelled as `none`. -/
def modeMap (key : String) : Option EnumMRZScanMode :=
  if key = docTypeValue .Passport then some .Passport
  else if key = docTypeValue .TD1 then some .TD1
  else if key = docTypeValue .TD2 then some .TD2
  else if key = docTypeValue .Passport ++ "," ++ docTypeValue .TD1 then some .PassportAndTD1
  else if key = docTypeValue .Passport ++ "," ++ docTypeValue .TD2 then some .PassportAndTD2
  else if key = docTypeValue .TD1 ++ "," ++ docTypeValue .TD2 then some .TD1AndTD2
  else if key = docTypeValue .Passport ++ "," ++ docTypeValue .TD1 ++ "," ++ docTypeValue .TD2
    then some .All
  else if key = "" then some .All
  else none

/-- `getScanMode` (`src/views/MRZScannerView.ts`, lines 787-806). -/
def getScanMode (s : ScanModeManagerState) : Option EnumMRZScanMode :=
  modeMap (enabledKey s)

/-- `initializeScanModeManager` (`src/views/MRZScannerView.ts`, lines 760-785):
start with all three types enabled; when a non-empty list of format types is
configured, reset all to `false` and enable exactly the requested ones. -/
def initializeScanModeManager (mrzFormatType : Option (List EnumMRZDocumentType)) :
    ScanModeManagerState :=
  let allEnabled : ScanModeManagerState := ⟨true, true, true⟩
  match mrzFormatType with
  | none => allEnabled
  | some types =>
    if types.length = 0 then allEnabled
    else types.foldl (fun s t => scanModeSet s t true) ⟨false, false, false⟩

/-- `toggleScanDocType` (`src/views/MRZScannerView.ts`, lines 820-844),
restricted to its state transition: returns the new manager state together
with `true` when the last-enabled-mode guard fired (warning toast shown, no
state change). -/
def toggleScanDocType (s : ScanModeManagerState) (docType : EnumMRZDocumentType) :
    ScanModeManagerState × Bool :=
  if scanModeGet s docType = true ∧
      ((scanModeEntries s).filter (fun e => e.2 = true ∧ e.1 ≠ docType)).length = 0 then
    (s, true)
  else
    (scanModeSet s docType (!scanModeGet s docType), false)

/-- Validation status of a parsed field (`EnumValidationStatus` of the
code-parser engine interface). -/
inductive EnumValidationStatus where
  | VS_NONE
  | VS_SUCCEEDED
  | VS_FAILED
  deriving DecidableEq, Repr

/-- The parsed-result accessor consumed by `processMRZData`
(`ParsedResultItem` of the code-parser engine interface): a code type plus
the three per-field lookups used by the mapper. -/
structure ParsedResultItem where
  codeType : String
  fieldValue : String → String
  fieldRawValue : String → String
  fieldValidationStatus : String → EnumValidationStatus

/-- The `isFieldInvalid` helper inside `processMRZData` (`src/index.ts`,
lines 115-120): a field is invalid when its validation status is
`VS_FAILED`. -/
def isFieldInvalid (p : ParsedResultItem) (fieldName : String) : Bool :=
  p.fieldValidationStatus fieldName == EnumValidationStatus.VS_FAILED

/-- Structured date (`MRZDate`, `src/index.ts` lines 66-70). -/
structure MRZDate where
  year : Int
  month : Int
  day : Int
  deriving DecidableEq, Repr

/-- The readings taken from `new Date()`: `getFullYear()`, `getMonth() + 1`
and `getDate()`.  Passed explicitly since the embedding is pure. -/
structure CurrentDate where
  year : Int
  month : Int
  day : Int
  deriving DecidableEq, Repr

/-- Value of the longest leading digit run of a character list. -/
def digitPrefixVal : List Char → Nat → Nat
  | c :: cs, acc =>
    if c.isDigit then digitPrefixVal cs (acc * 10 + (c.toNat - Char.toNat '0')) else acc
  | [], acc => acc

/-- Models JavaScript `parseInt(s, 10)` on the non-negative digit strings the
MRZ engine supplies for date sub-fields (the only strings it is applied to
here): the value of the longest digit run at the front.  Inputs with no
leading digit, which give `NaN` in JavaScript, are mapped to 0. -/
def jsParseInt (s : String) : Int :=
  Int.ofNat (digitPrefixVal s.data 0)

/-- JavaScript `a || b` on strings: `b` when `a` is empty (falsy), else `a`. -/
def jsStringOr (a b : String) : String :=
  if a = "" then b else a

/-- `calculateAge` (`src/index.ts`, lines 72-78): current year minus birth
year, minus one more when the birthday has not occurred yet this year. -/
def calculateAge (now : CurrentDate) (birthDate : MRZDate) : Int :=
  let hasBirthdayOccurred :=
    now.month > birthDate.month ∨ (now.month = birthDate.month ∧ now.day ≥ birthDate.day)
  now.year - birthDate.year - (if hasBirthdayOccurred then 0 else 1)

/-- `parseMRZDate` (`src/index.ts`, lines 80-90): parse the three 2-digit
sub-fields and resolve the century with a pivot against the current 2-digit
year.  (The repository holds a second variant of the parser that keeps raw
2-digit years and applies the same pivot inside `calculateAge` instead; the
composite year/century/age behaviour embedded here is that of the
`src/index.ts` variant the claims cite.) -/
def parseMRZDate (now : CurrentDate) (year month day : String) : MRZDate :=
  let twoDigitYear := jsParseInt year
  let currentYear := now.year
  let century : Int := if twoDigitYear > currentYear % 100 then 1900 else 2000
  { year := century + twoDigitYear, month := jsParseInt month, day := jsParseInt day }

/-- Field identifiers of the normalized record (`EnumMRZData`,
`src/index.ts` lines 30-43). -/
inductive EnumMRZData where
  | InvalidFields
  | DocumentType
  | DocumentNumber
  | MRZText
  | FirstName
  | LastName
  | Age
  | Sex
  | IssuingState
  | Nationality
  | DateOfBirth
  | DateOfExpiry
  deriving DecidableEq, Repr

/-- The string values of the `EnumMRZData` entries (`src/index.ts`,
lines 30-43); the default branch of the per-field validity switch looks the
parser field up under this string. -/
def enumMRZDataValue : EnumMRZData → String
  | .InvalidFields => "invalidFields"
  | .DocumentType => "documentType"
  | .DocumentNumber => "documentNumber"
  | .MRZText => "mrzText"
  | .FirstName => "firstName"
  | .LastName => "lastName"
  | .Age => "age"
  | .Sex => "sex"
  | .IssuingState => "issuingState"
  | .Nationality => "nationality"
  | .DateOfBirth => "dateOfBirth"
  | .DateOfExpiry => "dateOfExpiry"

/-- The normalized identity record (`MRZData`, `src/index.ts` lines 51-64). -/
structure MRZData where
  invalidFields : List EnumMRZData
  documentType : EnumMRZDocumentType
  documentNumber : String
  mrzText : String
  firstName : String
  lastName : String
  age : Int
  sex : String
  issuingState : String
  nationality : String
  dateOfBirth : MRZDate
  dateOfExpiry : MRZDate
  deriving DecidableEq, Repr

/-- The six MRTD code types `mapDocumentType` recognizes. -/
def recognizedCodeTypes : List String :=
  ["MRTD_TD1_ID", "MRTD_TD2_ID", "MRTD_TD2_VISA", "MRTD_TD2_FRENCH_ID",
    "MRTD_TD3_PASSPORT", "MRTD_TD3_VISA"]

/-- `mapDocumentType` (`src/index.ts`, lines 93-110): the switch over code
types; the default branch throws, modelled as `Except.error`. -/
def mapDocumentType (codeType : String) : Except String EnumMRZDocumentType :=
  if codeType = "MRTD_TD1_ID" then .ok .TD1
  else if codeType = "MRTD_TD2_ID" ∨ codeType = "MRTD_TD2_VISA" ∨
      codeType = "MRTD_TD2_FRENCH_ID" then .ok .TD2
  else if codeType = "MRTD_TD3_PASSPORT" ∨ codeType = "MRTD_TD3_VISA" then .ok .Passport
  else .error ("Unknown document type: " ++ codeType)

/-- Selection of the primary document-number source field (`src/index.ts`,
lines 126-127): passports other than TD3 visas read `passportNumber`,
everything else reads `documentNumber`. -/
def documentNumberFieldFor (documentType : EnumMRZDocumentType) (codeType : String) : String :=
  if documentType = .Passport ∧ codeType ≠ "MRTD_TD3_VISA" then "passportNumber"
  else "documentNumber"

/-- `processMRZData` (`src/index.ts`, lines 112-199).  The `invalidFields`
list keeps the source's push order: one `DateOfBirth` entry per failed birth
sub-field, one `DateOfExpiry` entry per failed expiry sub-field, then the
per-field checks in the insertion order of the `fields` object literal
(first name, last name, sex, issuing state, nationality, document number),
where the document-number flag is the OR of the primary field's and the
`longDocumentNumber` fallback's failure.  A throw from `mapDocumentType`
propagates as `Except.error`. -/
def processMRZData (now : CurrentDate) (mrzText : String) (parsedResult : ParsedResultItem) :
    Except String MRZData :=
  match mapDocumentType parsedResult.codeType with
  | .error e => .error e
  | .ok documentType =>
    let documentNumberField := documentNumberFieldFor documentType parsedResult.codeType
    let dateOfBirth := parseMRZDate now (parsedResult.fieldValue "birthYear")
      (parsedResult.fieldValue "birthMonth") (parsedResult.fieldValue "birthDay")
    let dateOfExpiry := parseMRZDate now (parsedResult.fieldValue "expiryYear")
      (parsedResult.fieldValue "expiryMonth") (parsedResult.fieldValue "expiryDay")
    let dobFlags := (["birthYear", "birthMonth", "birthDay"].filter
      (isFieldInvalid parsedResult)).map (fun _ => EnumMRZData.DateOfBirth)
    let doeFlags := (["expiryYear", "expiryMonth", "expiryDay"].filter
      (isFieldInvalid parsedResult)).map (fun _ => EnumMRZData.DateOfExpiry)
    let fieldChecks : List (EnumMRZData × Bool) :=
      [(.FirstName, isFieldInvalid parsedResult "secondaryIdentifier"),
        (.LastName, isFieldInvalid parsedResult "primaryIdentifier"),
        (.Sex, isFieldInvalid parsedResult (enumMRZDataValue .Sex)),
        (.IssuingState, isFieldInvalid parsedResult (enumMRZDataValue .IssuingState)),
        (.Nationality, isFieldInvalid parsedResult (enumMRZDataValue .Nationality)),
        (.DocumentNumber, isFieldInvalid parsedResult documentNumberField ||
          isFieldInvalid parsedResult "longDocumentNumber")]
    let invalidFields := dobFlags ++ doeFlags ++
      (fieldChecks.filter (fun c => c.2)).map (fun c => c.1)
    .ok {
      invalidFields := invalidFields
      mrzText := mrzText
      documentType := documentType
      age := calculateAge now dateOfBirth
      firstName := parsedResult.fieldValue "secondaryIdentifier"
      lastName := parsedResult.fieldValue "primaryIdentifier"
      sex := parsedResult.fieldValue "sex"
      issuingState := parsedResult.fieldRawValue "issuingState"
      nationality := parsedResult.fieldRawValue "nationality"
      documentNumber := jsStringOr (parsedResult.fieldValue documentNumberField)
        (parsedResult.fieldValue "longDocumentNumber")
      dateOfBirth := dateOfBirth
      dateOfExpiry := dateOfExpiry
    }

/-- A parsed result whose code type is not an MRTD code type. -/
def sampleUnknownParsed : ParsedResultItem where
  codeType := "MRTD_UNKNOWN"
  fieldValue := fun _ => ""
  fieldRawValue := fun _ => ""
  fieldValidationStatus := fun _ => .VS_NONE

/-- A parsed TD1 result whose primary `documentNumber` field failed
validation but supplies no value, while the `longDocumentNumber` fallback
passed validation and supplies the value used. -/
def docNumFallbackParsed : ParsedResultItem where
  codeType := "MRTD_TD1_ID"
  fieldValue := fun name =>
    if name = "longDocumentNumber" then "X123456"
    else if name = "birthYear" then "90"
    else if name = "birthMonth" then "05"
    else if name = "birthDay" then "10"
    else if name = "expiryYear" then "30"
    else if name = "expiryMonth" then "05"
    else if name = "expiryDay" then "10"
    else ""
  fieldRawValue := fun _ => "UTO"
  fieldValidationStatus := fun name =>
    if name = "documentNumber" then .VS_FAILED else .VS_SUCCEEDED

/-- The record `processMRZData` produces for `docNumFallbackParsed` on
2025-01-01. -/
def docNumFallbackData : MRZData where
  invalidFields := [.DocumentNumber]
  documentType := .TD1
  documentNumber := "X123456"
  mrzText := "MRZ"
  firstName := ""
  lastName := ""
  age := 34
  sex := ""
  issuingState := "UTO"
  nationality := "UTO"
  dateOfBirth := ⟨1990, 5, 10⟩
  dateOfExpiry := ⟨1930, 5, 10⟩

/-- Captured-item kinds (`EnumCapturedResultItemType` of the engine
interface), as far as the controller distinguishes them. -/
inductive EnumCapturedResultItemType where
  | CRIT_ORIGINAL_IMAGE
  | CRIT_TEXT_LINE
  | CRIT_PARSED_RESULT
  | CRIT_OTHER
  deriving DecidableEq, Repr

/-- A captured-result batch as consumed by `handleMRZResult` and
`uploadImage`: the item list (only its kinds and count matter here), the
optional `textLineResultItems` (each item reduced to its `text`; an absent
array is `none`), and `parsedResultItems` (an absent array modelled as the
empty list: indexing it yields `undefined` either way). -/
structure CapturedResult where
  items : List EnumCapturedResultItemType
  textLineResultItems : Option (List String)
  parsedResultItems : List ParsedResultItem

/-- The `data` slot of an `MRZResult`: missing key, the `{} as MRZData`
empty-object placeholder of the upload path, or a parsed record. -/
inductive JSDataSlot where
  | absent
  | emptyObject
  | parsed (d : MRZData)
  deriving DecidableEq, Repr

/-- A scan result as resolved by the session: status code, status message
and the data slot. -/
structure MRZResultModel where
  code : EnumResultStatus
  message : String
  data : JSDataSlot
  deriving DecidableEq, Repr

/-- The result `handleCloseBtn` resolves with
(`src/views/MRZScannerView.ts`, lines 278-289). -/
def cancelledResult : MRZResultModel := ⟨.RS_CANCELLED, "Cancelled", .absent⟩

/-- The result the catch block of the view's `initialize` resolves with
(`src/views/MRZScannerView.ts`, lines 157-169). -/
def initializeFailedResult : MRZResultModel :=
  ⟨.RS_FAILED, "Dynamsoft MRZ Scanner initialize error", .absent⟩

/-- The result the `openCamera` catch block resolves with (lines 647-661). -/
def openCameraFailedResult : MRZResultModel :=
  ⟨.RS_FAILED, "MRZ Scanner Open Camera Error", .absent⟩

/-- The result the `launch` catch block resolves with (lines 867-878). -/
def launchFailedResult : MRZResultModel := ⟨.RS_FAILED, "MRZ Scanner launch error", .absent⟩

/-- The result the `uploadImage` catch block resolves with (lines 459-471). -/
def uploadFailedResult : MRZResultModel :=
  ⟨.RS_FAILED, "Error processing uploaded image", .absent⟩

/-- The result the `handleMRZResult` catch block resolves with
(lines 744-757). -/
def captureFailedResult : MRZResultModel := ⟨.RS_FAILED, "Error capturing image", .absent⟩

/-- The resolution decision of `handleMRZResult`
(`src/views/MRZScannerView.ts`, lines 698-758): `none` means the callback
returns without resolving (a batch with at most one item, or an absent
`textLineResultItems` array).  Otherwise the mrz text is the first text
line's text with an empty-string default; indexing an empty
`parsedResultItems` gives `undefined` whose member access throws and is
caught (resolve Failed), as is a throw from `processMRZData`; a successful
mapping resolves Success with the parsed data. -/
def handleMRZResultOutcome (now : CurrentDate) (r : CapturedResult) : Option MRZResultModel :=
  if r.items.length ≤ 1 then none
  else
    match r.textLineResultItems with
    | none => none
    | some lines =>
      let mrzText := lines.head?.getD ""
      match r.parsedResultItems.head? with
      | none => some captureFailedResult
      | some p =>
        match processMRZData now mrzText p with
        | .ok d => some ⟨.RS_SUCCESS, "Success", .parsed d⟩
        | .error _ => some captureFailedResult

/-- The result `uploadImage` resolves with once a captured result is back
(`src/views/MRZScannerView.ts`, lines 423-471): when the length check on
`textLineResultItems` is falsy (absent or empty array) the `processedData`
stays the `{} as MRZData` empty object and the result is still Success;
with a text line present, a missing parsed item or a mapper throw is caught
and resolves Failed, otherwise Success with the parsed data. -/
def uploadImageOutcome (now : CurrentDate) (r : CapturedResult) : MRZResultModel :=
  match r.textLineResultItems with
  | none => ⟨.RS_SUCCESS, "Success", .emptyObject⟩
  | some lines =>
    if lines.length ≠ 0 then
      let mrzText := lines.head?.getD ""
      match r.parsedResultItems.head? with
      | none => uploadFailedResult
      | some p =>
        match processMRZData now mrzText p with
        | .ok d => ⟨.RS_SUCCESS, "Success", .parsed d⟩
        | .error _ => uploadFailedResult
    else ⟨.RS_SUCCESS, "Success", .emptyObject⟩

/-- An upload capture that recognized no text line: only the original image
came back. -/
def uploadNoTextCaptured : CapturedResult := ⟨[.CRIT_ORIGINAL_IMAGE], none, []⟩

/-- A fully valid parsed TD3 passport result. -/
def livePassportParsed : ParsedResultItem where
  codeType := "MRTD_TD3_PASSPORT"
  fieldValue := fun name =>
    if name = "birthYear" then "90"
    else if name = "birthMonth" then "05"
    else if name = "birthDay" then "10"
    else if name = "expiryYear" then "30"
    else if name = "expiryMonth" then "05"
    else if name = "expiryDay" then "10"
    else if name = "passportNumber" then "L898902C3"
    else if name = "primaryIdentifier" then "ERIKSSON"
    else if name = "secondaryIdentifier" then "ANNA MARIA"
    else if name = "sex" then "F"
    else ""
  fieldRawValue := fun _ => "UTO"
  fieldValidationStatus := fun _ => .VS_SUCCEEDED

/-- A live captured batch carrying an original image, a text line and a
parsed result. -/
def liveCaptured : CapturedResult :=
  ⟨[.CRIT_ORIGINAL_IMAGE, .CRIT_TEXT_LINE, .CRIT_PARSED_RESULT],
    some ["P<UTOERIKSSON"], [livePassportParsed]⟩

/-- The record `processMRZData` produces for `livePassportParsed` on
2025-01-01. -/
def liveSuccessData : MRZData :=
  ⟨[], .Passport, "L898902C3", "P<UTOERIKSSON", "ANNA MARIA", "ERIKSSON", 34, "F",
    "UTO", "UTO", ⟨1990, 5, 10⟩, ⟨1930, 5, 10⟩⟩

/-- The Success result the live path resolves with for `liveCaptured`. -/
def liveSuccessResult : MRZResultModel := ⟨.RS_SUCCESS, "Success", .parsed liveSuccessData⟩

/-- One call of the stored scan resolver on a result: in JavaScript,
invoking an `undefined` slot throws a TypeError instead of resolving. -/
def invokeResolver (resolverPresent : Bool) (result : MRZResultModel) :
    Except String MRZResultModel :=
  if resolverPresent then .ok result
  else .error "TypeError: this.currentScanResolver is not a function"

/-- The resolution step of `handleCloseBtn` (`src/views/MRZScannerView.ts`,
lines 278-289): the one path that checks the resolver slot before invoking
it, so an empty slot is a no-op (`ok none`). -/
def handleCloseBtnResolve (resolverPresent : Bool) : Except String (Option MRZResultModel) :=
  if resolverPresent then .ok (some cancelledResult) else .ok none

/-- The resolution step of the catch block of the view's `initialize`
(lines 157-169): the resolver is invoked without a guard. -/
def initializeCatchResolve (resolverPresent : Bool) : Except String MRZResultModel :=
  invokeResolver resolverPresent initializeFailedResult

/-- The resolution step of the `openCamera` catch block (lines 647-661),
unguarded. -/
def openCameraCatchResolve (resolverPresent : Bool) : Except String MRZResultModel :=
  invokeResolver resolverPresent openCameraFailedResult

/-- The resolution step of the `launch` catch block (lines 867-878),
unguarded. -/
def launchCatchResolve (resolverPresent : Bool) : Except String MRZResultModel :=
  invokeResolver resolverPresent launchFailedResult

/-- The resolution step of the `uploadImage` catch block (lines 459-471),
unguarded. -/
def uploadCatchResolve (resolverPresent : Bool) : Except String MRZResultModel :=
  invokeResolver resolverPresent uploadFailedResult

/-- The resolution step of the `handleMRZResult` catch block
(lines 744-757), unguarded. -/
def handleMRZCatchResolve (resolverPresent : Bool) : Except String MRZResultModel :=
  invokeResolver resolverPresent captureFailedResult

/-- State of the outer `MRZScanner` facade (`src/MRZScanner.ts`): the
`isCapturing` and `isInitialized` guards plus presence flags for the three
disposable shared resources. -/
structure MRZScannerState where
  isCapturing : Bool
  isInitialized : Bool
  hasCameraEnhancer : Bool
  hasCameraView : Bool
  hasCvRouter : Bool
  deriving DecidableEq, Repr

/-- `dispose` (`src/MRZScanner.ts`, lines 282-329): disposes and nulls the
camera enhancer, camera view and router, and clears `isInitialized`. -/
def disposeScanner (s : MRZScannerState) : MRZScannerState :=
  ⟨s.isCapturing, false, false, false, false⟩

/-- Entry of `launch` (`src/MRZScanner.ts`, lines 331-337): a call while a
session is in flight throws `Capture session already in progress` before
any other effect; otherwise `isCapturing` is set. -/
def launchStart (s : MRZScannerState) : Except String MRZScannerState :=
  if s.isCapturing then .error "Capture session already in progress"
  else .ok { s with isCapturing := true }

/-- The `finally` block of `launch` (`src/MRZScanner.ts`, lines 395-398),
reached on every terminal outcome: clear `isCapturing`, then `dispose`. -/
def launchFinish (s : MRZScannerState) : MRZScannerState :=
  disposeScanner { s with isCapturing := false }

/-- JavaScript `Math.round`: round half up, i.e. the floor of `q + 1/2`. -/
def jsRound (q : ℚ) : ℤ := ⌊q + 1 / 2⌋

/-- The percentage rectangle passed to `setScanRegion`
(`src/views/MRZScannerView.ts`, lines 559-565). -/
structure ScanRegion where
  left : ℤ
  right : ℤ
  top : ℤ
  bottom : ℤ
  deriving DecidableEq, Repr

/-- The `MRZScanGuideRatios` physical width/height table
(`src/views/MRZScannerView.ts`, lines 25-29). -/
def mrzScanGuideRatio : EnumMRZDocumentType → ℚ × ℚ
  | .TD1 => (85.6, 53.98)
  | .TD2 => (105, 74)
  | .Passport => (125, 88)

/-- The `baseUnit` computation of `calculateScanRegion`
(`src/views/MRZScannerView.ts`, lines 507-541): landscape viewports derive
it from 75% of the margin-adjusted height and clamp on 90% of the width;
portrait viewports derive it from 90% of the width and clamp on 75% of the
margin-adjusted height.  The bottom margin is 5rem at 16px. -/
def scanRegionBaseUnit (ratioWidth ratioHeight effectiveWidth effectiveHeight : ℚ) : ℚ :=
  let effectiveHeightWithMargin := effectiveHeight - 5 * 16
  if effectiveWidth > effectiveHeight then
    let availableHeight := effectiveHeightWithMargin * 0.75
    let baseUnit := availableHeight / ratioHeight
    let resultingWidth := baseUnit * ratioWidth
    if resultingWidth > effectiveWidth * 0.9 then effectiveWidth * 0.9 / ratioWidth else baseUnit
  else
    let availableWidth := effectiveWidth * 0.9
    let baseUnit := availableWidth / ratioWidth
    let resultingHeight := baseUnit * ratioHeight
    if resultingHeight > effectiveHeightWithMargin * 0.75 then
      effectiveHeightWithMargin * 0.75 / ratioHeight
    else baseUnit

/-- The geometry of `calculateScanRegion` (`src/views/MRZScannerView.ts`,
lines 493-569), for an open camera whose visible region has the given
width and height in pixels (the early returns for a closed camera or a
missing visible region produce no region and are outside the geometry). -/
def calculateScanRegion (documentType : EnumMRZDocumentType) (visW visH : ℚ) : ScanRegion :=
  let targetRatio := mrzScanGuideRatio documentType
  let effectiveWidth := visW
  let effectiveHeight := visH
  let effectiveHeightWithMargin := effectiveHeight - 5 * 16
  let baseUnit := scanRegionBaseUnit targetRatio.1 targetRatio.2 effectiveWidth effectiveHeight
  let actualWidth := baseUnit * targetRatio.1
  let actualHeight := baseUnit * targetRatio.2
  let leftOffset := (effectiveWidth - actualWidth) / 2
  let topOffset := (effectiveHeightWithMargin - actualHeight) / 2
  { left := jsRound (leftOffset / effectiveWidth * 100)
    right := jsRound ((leftOffset + actualWidth) / effectiveWidth * 100)
    top := jsRound (topOffset / effectiveHeight * 100)
    bottom := jsRound ((topOffset + actualHeight) / effectiveHeight * 100) }

/-- In every branch, the guide width `baseUnit * ratioWidth` is at most 90%
of the viewport width. -/
theorem scanRegionBaseUnit_mul_le (rW rH w h : ℚ) (hrw : 0 < rW) (hrh : 0 < rH) :
    scanRegionBaseUnit rW rH w h * rW ≤ 0.9 * w := by
  unfold scanRegionBaseUnit
  dsimp only
  split_ifs with h1 h2 h3
  · rw [div_mul_cancel₀ _ (ne_of_gt hrw)]; linarith
  · push_neg at h2; linarith
  · rw [div_mul_eq_mul_div, gt_iff_lt, lt_div_iff hrw] at h3
    rw [div_mul_eq_mul_div, div_le_iff hrh]
    ring_nf at h3 ⊢
    linarith
  · rw [div_mul_cancel₀ _ (ne_of_gt hrw)]; linarith

/-- A centered guide of width at most 90% of the viewport has rounded edge
percentages inside the 0 to 100 range. -/
theorem jsRound_scan_bounds (w aw : ℚ) (hw : 0 < w) (haw : aw ≤ 0.9 * w) :
    0 ≤ jsRound ((w - aw) / 2 / w * 100) ∧ jsRound (((w - aw) / 2 + aw) / w * 100) ≤ 100 := by
  constructor
  · unfold jsRound
    rw [Int.le_floor]
    push_cast
    have hnum : 0 ≤ (w - aw) / 2 / w * 100 := by
      apply mul_nonneg _ (by norm_num)
      apply div_nonneg _ (le_of_lt hw)
      apply div_nonneg _ (by norm_num)
      linarith
    linarith
  · unfold jsRound
    have hub : ((w - aw) / 2 + aw) / w * 100 ≤ 95 := by
      rw [div_mul_eq_mul_div, div_le_iff hw]
      ring_nf
      linarith
    have hlt : (((w - aw) / 2 + aw) / w * 100 + 1 / 2 : ℚ) < ((101 : ℤ) : ℚ) := by
      push_cast; linarith
    have hfl := Int.floor_lt.mpr hlt
    omega

/-- C3: the scan-mode state always keeps at least one document type enabled:
starting from a state with exactly one enabled type, `toggleScanDocType` on
that type is rejected (state unchanged, warning emitted), and every
`toggleScanDocType` call preserves the at-least-one-enabled invariant. -/
theorem toggleScanDocType_at_least_one_enabled :
    ∀ (s : ScanModeManagerState) (t : EnumMRZDocumentType),
      (enabledCount s = 1 → scanModeGet s t = true → toggleScanDocType s t = (s, true)) ∧
      (1 ≤ enabledCount s → 1 ≤ enabledCount (toggleScanDocType s t).1) := by
  rintro ⟨p, t1, t2⟩ t
  cases p <;> cases t1 <;> cases t2 <;> cases t <;> decide

/-- Witness for C3 at a concrete input: with only Passport enabled, toggling
Passport is rejected with a warning, and the invariant is kept. -/
theorem toggleScanDocType_at_least_one_enabled_witness :
    toggleScanDocType ⟨true, false, false⟩ .Passport = (⟨true, false, false⟩, true) ∧
    1 ≤ enabledCount (toggleScanDocType ⟨true, false, false⟩ .Passport).1 :=
  ⟨(toggleScanDocType_at_least_one_enabled ⟨true, false, false⟩ .Passport).1
      (by decide) (by decide),
    (toggleScanDocType_at_least_one_enabled ⟨true, false, false⟩ .Passport).2 (by decide)⟩

/-- C8: on non-empty enabled-sets, `getScanMode` returns a mode identifier
(the sorted-key lookup hits), and the enabled-set-to-mode mapping is
injective: distinct non-empty enabled-sets get distinct identifiers, equal
enabled-sets the same identifier. -/
theorem getScanMode_injective_on_nonempty :
    ∀ (s1 s2 : ScanModeManagerState),
      1 ≤ enabledCount s1 → 1 ≤ enabledCount s2 →
      (getScanMode s1).isSome = true ∧ (getScanMode s1 = getScanMode s2 ↔ s1 = s2) := by
  rintro ⟨p, t1, t2⟩ ⟨q, u1, u2⟩
  cases p <;> cases t1 <;> cases t2 <;> cases q <;> cases u1 <;> cases u2 <;> decide

/-- Witness for C8 at concrete inputs: the Passport-only and TD1-only
enabled-sets both get a mode, and their modes differ. -/
theorem getScanMode_injective_on_nonempty_witness :
    (getScanMode ⟨true, false, false⟩).isSome = true ∧
    (getScanMode ⟨true, false, false⟩ = getScanMode ⟨false, true, false⟩ ↔
      (⟨true, false, false⟩ : ScanModeManagerState) = ⟨false, true, false⟩) :=
  getScanMode_injective_on_nonempty ⟨true, false, false⟩ ⟨false, true, false⟩
    (by decide) (by decide)

/-- C10: `getScanMode` is total on the scan-mode state: in particular the
all-disabled state is mapped (through the empty-string key) to the `All`
mode, the same identifier as the all-enabled state, instead of signalling a
programming error. -/
theorem getScanMode_empty_set_is_all :
    getScanMode ⟨false, false, false⟩ = some .All ∧
    getScanMode ⟨true, true, true⟩ = some .All ∧
    ∀ s : ScanModeManagerState, (getScanMode s).isSome = true := by
  refine ⟨by decide, by decide, ?_⟩
  rintro ⟨p, t1, t2⟩
  cases p <;> cases t1 <;> cases t2 <;> decide

/-- C5: the resolved century of a parsed birth date is 1900 when the 2-digit
year exceeds the current year mod 100 and 2000 otherwise, and the computed
age is current year minus resolved birth year, minus 1 exactly when the
current month/day precedes the birth month/day; in particular birth
90-05-10 gives age 34 on 2024-06-01 and 33 on 2024-04-01. -/
theorem parseMRZDate_century_and_age :
    (∀ (now : CurrentDate) (ys ms ds : String),
      (parseMRZDate now ys ms ds).year =
        (if jsParseInt ys > now.year % 100 then 1900 else 2000) + jsParseInt ys ∧
      calculateAge now (parseMRZDate now ys ms ds) =
        now.year - (parseMRZDate now ys ms ds).year -
          (if now.month < jsParseInt ms ∨ (now.month = jsParseInt ms ∧ now.day < jsParseInt ds)
            then 1 else 0)) ∧
    calculateAge ⟨2024, 6, 1⟩ (parseMRZDate ⟨2024, 6, 1⟩ "90" "05" "10") = 34 ∧
    calculateAge ⟨2024, 4, 1⟩ (parseMRZDate ⟨2024, 4, 1⟩ "90" "05" "10") = 33 := by
  refine ⟨?_, by decide, by decide⟩
  intro now ys ms ds
  unfold parseMRZDate calculateAge
  constructor
  · rfl
  · simp only []
    split_ifs <;> omega

/-- C7: on any code type outside the six recognized MRTD code types,
`processMRZData` propagates the unknown-document-type error and returns no
record. -/
theorem processMRZData_unknown_code_type (now : CurrentDate) (mrzText : String)
    (p : ParsedResultItem) (h : p.codeType ∉ recognizedCodeTypes) :
    processMRZData now mrzText p = .error ("Unknown document type: " ++ p.codeType) := by
  simp only [recognizedCodeTypes, List.mem_cons, List.not_mem_nil, or_false, not_or] at h
  obtain ⟨h1, h2, h3, h4, h5, h6⟩ := h
  unfold processMRZData mapDocumentType
  simp [h1, h2, h3, h4, h5, h6]

/-- Witness for C7 at the concrete code type `MRTD_UNKNOWN`. -/
theorem processMRZData_unknown_code_type_witness :
    sampleUnknownParsed.codeType ∉ recognizedCodeTypes ∧
    processMRZData ⟨2025, 1, 1⟩ "" sampleUnknownParsed =
      .error ("Unknown document type: " ++ sampleUnknownParsed.codeType) :=
  ⟨by decide, processMRZData_unknown_code_type ⟨2025, 1, 1⟩ "" sampleUnknownParsed (by decide)⟩

/-- C1 (amended): `DocumentNumber` is listed in `invalidFields` exactly when
the primary document-number source field failed validation OR the
`longDocumentNumber` fallback failed validation — regardless of which field
supplied the value actually used.  (Both failed still implies listed, as the
original claim states; primary failed with a passing fallback is listed too,
which refutes the original claim's first half.) -/
theorem processMRZData_documentNumber_or_rule :
    ∀ (now : CurrentDate) (mrzText : String) (p : ParsedResultItem) (d : MRZData),
      processMRZData now mrzText p = .ok d →
      (EnumMRZData.DocumentNumber ∈ d.invalidFields ↔
        (p.fieldValidationStatus (documentNumberFieldFor d.documentType p.codeType) =
            .VS_FAILED ∨
          p.fieldValidationStatus "longDocumentNumber" = .VS_FAILED)) := by
  intro now mrzText p d h
  unfold processMRZData at h
  cases hmap : mapDocumentType p.codeType with
  | error e => rw [hmap] at h; exact absurd h (by simp)
  | ok dt =>
    rw [hmap] at h
    simp only [] at h
    cases h
    simp [isFieldInvalid, List.mem_append, List.mem_map, List.mem_filter, List.mem_cons]

/-- Counterexample to C1 as stated: with the primary field Failed, the
fallback Passed and the fallback supplying the value actually used,
`processMRZData` still lists `DocumentNumber` in `invalidFields`. -/
theorem processMRZData_documentNumber_counterexample :
    docNumFallbackParsed.fieldValidationStatus "documentNumber" = .VS_FAILED ∧
    docNumFallbackParsed.fieldValidationStatus "longDocumentNumber" = .VS_SUCCEEDED ∧
    docNumFallbackParsed.fieldValue "documentNumber" = "" ∧
    (processMRZData ⟨2025, 1, 1⟩ "MRZ" docNumFallbackParsed).toOption.map
      (fun d => d.documentNumber) = some "X123456" ∧
    (processMRZData ⟨2025, 1, 1⟩ "MRZ" docNumFallbackParsed).toOption.map
      (fun d => d.invalidFields.contains .DocumentNumber) = some true := by
  decide

/-- Witness for the amended C1 at a concrete parsed result. -/
theorem processMRZData_documentNumber_or_rule_witness :
    EnumMRZData.DocumentNumber ∈ docNumFallbackData.invalidFields ↔
      (docNumFallbackParsed.fieldValidationStatus
          (documentNumberFieldFor docNumFallbackData.documentType docNumFallbackParsed.codeType) =
          .VS_FAILED ∨
        docNumFallbackParsed.fieldValidationStatus "longDocumentNumber" = .VS_FAILED) :=
  processMRZData_documentNumber_or_rule ⟨2025, 1, 1⟩ "MRZ" docNumFallbackParsed
    docNumFallbackData (by rfl)

/-- C4 (amended): a scan result's `data` is absent exactly when the status
is not Success; live-capture Success results always carry parsed data, but
on the upload path a capture with no recognized text line (absent or empty
`textLineResultItems`) still resolves Success with the empty object as
`data`; the cancellation and all failure results carry no data. -/
theorem scanResult_data_presence :
    ∀ (now : CurrentDate) (r : CapturedResult) (res : MRZResultModel),
      (handleMRZResultOutcome now r = some res →
        ((res.data ≠ .absent ↔ res.code = .RS_SUCCESS) ∧
          (res.code = .RS_SUCCESS → ∃ d, res.data = .parsed d))) ∧
      ((uploadImageOutcome now r).data ≠ .absent ↔
        (uploadImageOutcome now r).code = .RS_SUCCESS) ∧
      (r.textLineResultItems = none →
        uploadImageOutcome now r = ⟨.RS_SUCCESS, "Success", .emptyObject⟩) ∧
      (r.textLineResultItems = some [] →
        uploadImageOutcome now r = ⟨.RS_SUCCESS, "Success", .emptyObject⟩) ∧
      cancelledResult.data = .absent ∧
      initializeFailedResult.data = .absent ∧
      openCameraFailedResult.data = .absent ∧
      launchFailedResult.data = .absent := by
  intro now r res
  refine ⟨?_, ?_, ?_, ?_, rfl, rfl, rfl, rfl⟩
  · intro h
    unfold handleMRZResultOutcome at h
    split_ifs at h
    cases hr : r.textLineResultItems with
    | none => rw [hr] at h; simp at h
    | some lines =>
      rw [hr] at h
      simp only [] at h
      cases hq : r.parsedResultItems.head? with
      | none =>
        rw [hq] at h
        simp only [Option.some.injEq] at h
        subst h
        refine ⟨by simp [captureFailedResult], fun hc => ?_⟩
        simp [captureFailedResult] at hc
      | some p =>
        rw [hq] at h
        simp only [] at h
        cases hpd : processMRZData now (lines.head?.getD "") p with
        | ok d =>
          rw [hpd] at h
          simp only [Option.some.injEq] at h
          subst h
          exact ⟨by simp, fun _ => ⟨d, rfl⟩⟩
        | error e =>
          rw [hpd] at h
          simp only [Option.some.injEq] at h
          subst h
          refine ⟨by simp [captureFailedResult], fun hc => ?_⟩
          simp [captureFailedResult] at hc
  · unfold uploadImageOutcome
    cases hr : r.textLineResultItems with
    | none => simp
    | some lines =>
      simp only []
      split_ifs with hl
      · cases hq : r.parsedResultItems.head? with
        | none => simp [uploadFailedResult]
        | some p =>
          simp only []
          cases hpd : processMRZData now (lines.head?.getD "") p with
          | ok d => simp
          | error e => simp [uploadFailedResult]
      · simp
  · intro hr; unfold uploadImageOutcome; rw [hr]
  · intro hr; unfold uploadImageOutcome; rw [hr]; simp

/-- Counterexample to C4 as stated: an upload capture with no recognized
text line resolves with status Success and the empty object as data — a
Success result whose data was never parsed. -/
theorem uploadImage_success_empty_data_counterexample :
    (uploadImageOutcome ⟨2025, 1, 1⟩ uploadNoTextCaptured).code = .RS_SUCCESS ∧
    (uploadImageOutcome ⟨2025, 1, 1⟩ uploadNoTextCaptured).data = .emptyObject := by
  decide

/-- Witness for the amended C4 at a concrete live capture. -/
theorem scanResult_data_presence_witness :
    liveSuccessResult.data ≠ JSDataSlot.absent ↔ liveSuccessResult.code = .RS_SUCCESS :=
  ((scanResult_data_presence ⟨2025, 1, 1⟩ liveCaptured liveSuccessResult).1 (by rfl)).1

/-- C2: resolution behaviour of every terminal path on an empty
`currentScanResolver` slot.  Only the close-button path guards the slot and
is a no-op; the initialize-failure, open-camera-failure, launch-failure,
upload-failure and captured-result-failure paths invoke the `undefined`
resolver and throw a TypeError — the code contradicts the claimed
never-crash behaviour on those five paths. -/
theorem currentScanResolver_empty_slot_behavior :
    handleCloseBtnResolve false = .ok none ∧
    handleCloseBtnResolve true = .ok (some cancelledResult) ∧
    initializeCatchResolve false =
      .error "TypeError: this.currentScanResolver is not a function" ∧
    openCameraCatchResolve false =
      .error "TypeError: this.currentScanResolver is not a function" ∧
    launchCatchResolve false =
      .error "TypeError: this.currentScanResolver is not a function" ∧
    uploadCatchResolve false =
      .error "TypeError: this.currentScanResolver is not a function" ∧
    handleMRZCatchResolve false =
      .error "TypeError: this.currentScanResolver is not a function" :=
  ⟨rfl, rfl, rfl, rfl, rfl, rfl, rfl⟩

/-- C9: a `launch` call while a session is in flight fails fast with
`Capture session already in progress`, and after any session reaches its
terminal outcome the `finally` block clears `isCapturing` and disposes all
resources. -/
theorem launch_single_session_guard :
    ∀ s : MRZScannerState,
      (s.isCapturing = true → launchStart s = .error "Capture session already in progress") ∧
      (launchFinish s).isCapturing = false ∧
      (launchFinish s).hasCameraEnhancer = false ∧
      (launchFinish s).hasCameraView = false ∧
      (launchFinish s).hasCvRouter = false ∧
      (launchFinish s).isInitialized = false := by
  intro s
  refine ⟨fun h => ?_, rfl, rfl, rfl, rfl, rfl⟩
  simp [launchStart, h]

/-- Witness for C9: a second `launch` on a capturing scanner rejects. -/
theorem launch_single_session_guard_witness :
    launchStart ⟨true, true, true, true, true⟩ =
      .error "Capture session already in progress" :=
  (launch_single_session_guard ⟨true, true, true, true, true⟩).1 rfl

/-- C6: for each document type and every visible-viewport width and height
between 100 and 4000 pixels, the rounded guide rectangle satisfies
`0 ≤ left` and `right ≤ 100`. -/
theorem calculateScanRegion_in_viewport :
    ∀ (t : EnumMRZDocumentType) (w h : ℚ),
      100 ≤ w → w ≤ 4000 → 100 ≤ h → h ≤ 4000 →
      0 ≤ (calculateScanRegion t w h).left ∧ (calculateScanRegion t w h).right ≤ 100 := by
  intro t w h hw1 hw2 hh1 hh2
  have hw : 0 < w := by linarith
  cases t
  · exact jsRound_scan_bounds w (scanRegionBaseUnit 85.6 53.98 w h * 85.6) hw
      (scanRegionBaseUnit_mul_le 85.6 53.98 w h (by norm_num) (by norm_num))
  · exact jsRound_scan_bounds w (scanRegionBaseUnit 105 74 w h * 105) hw
      (scanRegionBaseUnit_mul_le 105 74 w h (by norm_num) (by norm_num))
  · exact jsRound_scan_bounds w (scanRegionBaseUnit 125 88 w h * 125) hw
      (scanRegionBaseUnit_mul_le 125 88 w h (by norm_num) (by norm_num))

/-- Witness for C6 at a 1280 by 720 viewport with the TD1 guide. -/
theorem calculateScanRegion_in_viewport_witness :
    0 ≤ (calculateScanRegion .TD1 1280 720).left ∧
    (calculateScanRegion .TD1 1280 720).right ≤ 100 :=
  calculateScanRegion_in_viewport .TD1 1280 720 (by norm_num) (by norm_num)
    (by norm_num) (by norm_num)
